import Mathlib

/-!
# Verification of the kaanoongpt account-provisioning and authentication core

A shallow embedding of the repository's authentication subsystem:

* `src/utils/password.py` — SHA-256 pre-hash + bcrypt password hashing,
* `src/models/user.py` — the `User` and `PendingUser` documents,
* `src/models/schemas.py` — pydantic request validation,
* `src/routers/auth.py` — the signup / verify-otp / resend-otp / login /
  google-callback route handlers.

Time (`datetime.utcnow()`) is modelled as natural-number seconds;
`timedelta(minutes=m)` is `60 * m` seconds.  External collaborators
(hashlib's SHA-256, the bcrypt library, the JWT encoder, the SendGrid
client, the Google OAuth exchange) are modelled by executable stand-ins
that keep exactly the contracts the code relies on, as documented at
each definition.
-/

/-- `true` iff the `Except` value is a success.  (Generic helper.) -/
def isOkE {ε α : Type} : Except ε α → Bool
  | .ok _ => true
  | .error _ => false

/-! ## Credential hasher (`src/utils/password.py`)

`hashlib.sha256(...).hexdigest()` is an external library call.  The model
below keeps the two properties the code relies on: it is a deterministic
pure function of the input string, and its output consists only of hex
characters, always exactly 64 of them (so it always fits under bcrypt's
72-byte input limit).  The mixing function is a stand-in for the real
compression function; no claim depends on collision behaviour. -/

/-- The sixteen hex digit characters used by `hexdigest`. -/
def hexDigit : Nat → Char
  | 0 => '0' | 1 => '1' | 2 => '2' | 3 => '3' | 4 => '4' | 5 => '5'
  | 6 => '6' | 7 => '7' | 8 => '8' | 9 => '9' | 10 => 'a' | 11 => 'b'
  | 12 => 'c' | 13 => 'd' | 14 => 'e' | _ => 'f'

/-- Modelled: the 256-bit digest state of `hashlib.sha256` over the
password's characters (deterministic stand-in mixing each character in). -/
def shaMix (s : String) : Nat :=
  s.data.foldl (fun a c => (a * 65599 + c.toNat + 1) % (2 ^ 256)) 14695981039346656037

/-- Modelled: `hashlib.sha256(password.encode()).hexdigest()` — a
deterministic function of the input producing exactly 64 hex characters. -/
def sha256hex (s : String) : String :=
  String.mk ((List.range 64).map fun i => hexDigit (shaMix s / 16 ^ i % 16))

/-- Split a character list on `'$'` (the separator of the modelled
bcrypt hash-string format). -/
def splitD : List Char → List (List Char)
  | [] => [[]]
  | c :: cs =>
    if c = '$' then [] :: splitD cs
    else
      match splitD cs with
      | [] => [[c]]
      | l :: ls => (c :: l) :: ls

/-- Modelled: `bcrypt.hashpw(input, bcrypt.gensalt(rounds=12))`.  bcrypt
truncates its input to 72 bytes; the model records the algorithm tag,
cost, salt and the (truncated) input in a `$`-separated string standing
for the opaque `$2b$12$<salt><digest>` hash string. -/
def bcryptHashpw (input salt : String) : String :=
  String.mk ('$' :: '2' :: 'b' :: '$' :: '1' :: '2' :: '$' ::
    (salt.data ++ '$' :: input.data.take 72))

/-- Modelled: the bcrypt library's parse of a stored hash string; `none`
models the exception raised on a malformed hash. -/
def bcryptParse (s : String) : Option (String × String) :=
  match splitD s.data with
  | [[], ['2', 'b'], ['1', '2'], salt, data] => some (String.mk salt, String.mk data)
  | _ => none

/-- Modelled: `bcrypt.checkpw(candidate, stored)` — parses the stored
hash (`none` models the exception on a malformed hash) and compares the
bcrypt hash of the 72-byte-truncated candidate under the stored salt
with the stored digest. -/
def bcryptCheckpw (candidate stored : String) : Option Bool :=
  match bcryptParse stored with
  | none => none
  | some (_, data) => some (String.mk (candidate.data.take 72) == data)

/-- `hash_password` (`src/utils/password.py:8-52`): raises `ValueError`
on an empty password, else bcrypt-hashes the SHA-256 hex digest of the
password.  The per-call random salt from `bcrypt.gensalt` is passed
explicitly.  (The `isinstance(password, str)` guard is enforced by the
Lean type.) -/
def hash_password (password : String) (salt : String) : Except String String :=
  if password = "" then .error "Password cannot be empty"
  else .ok (bcryptHashpw (sha256hex password) salt)

/-- `verify_password` (`src/utils/password.py:54-78`): returns `false`
on empty password or empty stored hash, applies the same SHA-256
pre-hash, and returns `false` (instead of propagating the exception)
when `bcrypt.checkpw` fails on a malformed stored hash. -/
def verify_password (plain_password hashed_password : String) : Bool :=
  if plain_password = "" ∨ hashed_password = "" then false
  else
    match bcryptCheckpw (sha256hex plain_password) hashed_password with
    | some result => result
    | none => false

/-! ## Request validation (`src/models/schemas.py`)

The pydantic model `SignupRequest` validates fields in declaration order;
the model below runs the same checks and returns the first error (pydantic
aggregates all field errors, but a request is accepted iff every check
passes, which is what the claims are about). -/

/-- The numeric value of a decimal digit character, `none` otherwise. -/
def digitVal (c : Char) : Option Nat :=
  if c.isDigit then some (c.toNat - 48) else none

/-- A calendar date as parsed by `datetime.strptime(v, "%Y-%m-%d")`. -/
structure DateYMD where
  year : Nat
  month : Nat
  day : Nat
deriving DecidableEq, Repr

/-- Gregorian leap-year test (as used by `datetime`). -/
def isLeap (y : Nat) : Bool :=
  (y % 4 = 0 && y % 100 != 0) || y % 400 = 0

/-- Days in a month, Gregorian calendar. -/
def daysInMonth (y m : Nat) : Nat :=
  if m = 2 then (if isLeap y then 29 else 28)
  else if m = 4 ∨ m = 6 ∨ m = 9 ∨ m = 11 then 30
  else 31

/-- Days from March-anchored cumulative month table (m = 1..12). -/
def daysBeforeMonth (y m : Nat) : Nat :=
  (List.range (m - 1)).foldl (fun a i => a + daysInMonth y (i + 1)) 0

/-- Day count of a civil date (days since a fixed epoch), the quantity
`datetime` subtraction `.days` is computed from. -/
def daysFromCivil (d : DateYMD) : Nat :=
  365 * (d.year - 1) + (d.year - 1) / 4 - (d.year - 1) / 100 + (d.year - 1) / 400 +
    daysBeforeMonth d.year d.month + (d.day - 1)

/-- Modelled: `datetime.strptime(v, "%Y-%m-%d")` on the canonical
zero-padded `YYYY-MM-DD` form of the interface contract: four digit year,
two digit month and day, month and day in calendar range; `none` models
the `ValueError` on any other input. -/
def strptimeYMD (s : String) : Option DateYMD :=
  match s.data with
  | [y1, y2, y3, y4, '-', m1, m2, '-', d1, d2] =>
    match digitVal y1, digitVal y2, digitVal y3, digitVal y4,
          digitVal m1, digitVal m2, digitVal d1, digitVal d2 with
    | some a, some b, some c, some d, some e, some f, some g, some h =>
      let y := 1000 * a + 100 * b + 10 * c + d
      let m := 10 * e + f
      let dy := 10 * g + h
      if 1 ≤ m ∧ m ≤ 12 ∧ 1 ≤ dy ∧ dy ≤ daysInMonth y m then
        some ⟨y, m, dy⟩
      else none
    | _, _, _, _, _, _, _, _ => none
  | _ => none

/-- Modelled: pydantic's `EmailStr` shape check (external library),
simplified to requiring an `'@'`; no claim depends on its precision. -/
def emailShape (s : String) : Bool :=
  s.data.contains '@'

/-- The allowed organization types of
`SignupRequest.validate_organization_type` (`src/models/schemas.py:18`).
Note the list does not contain `"researcher"`. -/
def organizationTypeAllowed : List String :=
  ["law_firm", "corporate", "government", "ngo", "individual", "student", "other"]

/-- `validate_organization_type` (`src/models/schemas.py:15-21`):
accepts exactly the values of `organizationTypeAllowed`, raising a
`ValueError` (modelled as `.error`) otherwise. -/
def validate_organization_type (v : String) : Except String String :=
  if organizationTypeAllowed.contains v then .ok v
  else .error "organization_type must be one of the allowed values"

/-- The default `organization_type` of the `User` document
(`src/models/user.py:13`). -/
def userDefaultOrganizationType : String := "researcher"

/-- A raw (pre-validation) signup request body. -/
structure RawSignup where
  full_name : String
  email : String
  date_of_birth : String
  organization_type : String
  organization_name : Option String
  password : String
  confirm_password : String
deriving DecidableEq, Repr

/-- `SignupRequest.validate_date_of_birth` (`src/models/schemas.py:30-45`):
parse as `YYYY-MM-DD`, then require age between 18 and 120 years where
`age = (now - dob).days / 365.25`.  The float comparisons `age < 18` and
`age > 120` are expressed exactly over integers:
`days / 365.25 < 18 ↔ 4 * days < 26298` and
`days / 365.25 > 120 ↔ 4 * days > 175320`.  `nowDays` is the day count
of `datetime.now()`. -/
def validate_date_of_birth (nowDays : Nat) (v : String) : Except String String :=
  match strptimeYMD v with
  | none => .error "Date format must be YYYY-MM-DD"
  | some dob =>
    let ageDays := nowDays - daysFromCivil dob
    if 4 * ageDays < 26298 then .error "You must be at least 18 years old"
    else if 4 * ageDays > 175320 then .error "Invalid date of birth"
    else .ok v

/-- The pydantic validation of `SignupRequest`
(`src/models/schemas.py:5-45`): field constraints and validators in
declaration order — `full_name` length 2..100, `EmailStr`,
`date_of_birth` format and age, `organization_type` enumeration,
`organization_name` length ≤ 200, `password` minimum length 10,
`confirm_password` equal to `password`.  Validation is a pure function
of the request: it happens before the route handler runs, so before any
hashing or store access. -/
def validateSignupRequest (nowDays : Nat) (r : RawSignup) : Except String RawSignup :=
  if r.full_name.length < 2 then .error "full_name too short"
  else if r.full_name.length > 100 then .error "full_name too long"
  else if emailShape r.email = false then .error "value is not a valid email address"
  else
    match validate_date_of_birth nowDays r.date_of_birth with
    | .error e => .error e
    | .ok _ =>
      match validate_organization_type r.organization_type with
      | .error e => .error e
      | .ok _ =>
        if (match r.organization_name with
            | some n => decide (n.length > 200)
            | none => false) = true then .error "organization_name too long"
        else if r.password.length < 10 then .error "password too short"
        else if r.confirm_password ≠ r.password then .error "Passwords do not match"
        else .ok r

/-- `VerifyOTPRequest` field constraint (`src/models/schemas.py:47-57`):
the `otp` field must be exactly six decimal digits. -/
def validateOtpField (otp : String) : Bool :=
  otp.length = 6 && otp.data.all (·.isDigit)

/-! ## Data model (`src/models/user.py`) -/

/-- The `User` document (`src/models/user.py:6-43`): a confirmed
identity in the `users` collection.  `date_of_birth` is the parsed
date; timestamps are omitted (no claim mentions them).  The collection
declares no unique index on `email` (only the implicit `_id` index), so
inserts never fail on a duplicate email. -/
structure User where
  email : String
  full_name : String
  date_of_birth : Option DateYMD
  organization_type : String
  organization_name : Option String
  hashed_password : Option String
  google_id : Option String
  is_email_verified : Bool
  is_active : Bool
  is_superuser : Bool
deriving DecidableEq, Repr

/-- The `PendingUser` document (`src/models/user.py:46-78`): an
unconfirmed signup with embedded OTP state, in the `pending_users`
collection. -/
structure PendingUser where
  email : String
  full_name : String
  date_of_birth : DateYMD
  organization_type : String
  organization_name : Option String
  hashed_password : String
  otp_code : String
  otp_created_at : Nat
  otp_attempts : Nat
deriving DecidableEq, Repr

/-- `PendingUser.is_otp_expired` (`src/models/user.py:70-74`):
`utcnow() > otp_created_at + timedelta(minutes=expiry_minutes)`. -/
def PendingUser.is_otp_expired (p : PendingUser) (expiry_minutes : Nat) (now : Nat) : Bool :=
  now > p.otp_created_at + 60 * expiry_minutes

/-- `PendingUser.is_locked` (`src/models/user.py:76-78`):
`otp_attempts >= max_attempts`. -/
def PendingUser.is_locked (p : PendingUser) (max_attempts : Nat) : Bool :=
  p.otp_attempts ≥ max_attempts

/-- The durable store: the `users` and `pending_users` collections.
MongoDB single-document operations are modelled over lists; `find_one`
returns the first match. -/
structure AuthState where
  users : List User
  pending : List PendingUser
deriving DecidableEq, Repr

/-- `User.find_one(User.email == email)`. -/
def findUserByEmail (st : AuthState) (email : String) : Option User :=
  st.users.find? (·.email == email)

/-- `PendingUser.find_one(PendingUser.email == email)`. -/
def findPendingByEmail (st : AuthState) (email : String) : Option PendingUser :=
  st.pending.find? (·.email == email)

/-- `document.delete()` on the pending user found for `email`: removes
that one document (the first match). -/
def removeFirstPending : List PendingUser → String → List PendingUser
  | [], _ => []
  | q :: qs, e => if q.email == e then qs else q :: removeFirstPending qs e

/-- `pending_user.delete()` at the store level. -/
def deletePending (st : AuthState) (email : String) : AuthState :=
  { st with pending := removeFirstPending st.pending email }

/-- `document.save()` on a pending user: update that one document in
place (the first one with its email). -/
def replaceFirstPending : List PendingUser → PendingUser → List PendingUser
  | [], _ => []
  | q :: qs, p => if q.email == p.email then p :: qs else q :: replaceFirstPending qs p

/-- `pending_user.save()` at the store level. -/
def savePending (st : AuthState) (p : PendingUser) : AuthState :=
  { st with pending := replaceFirstPending st.pending p }

/-- `document.insert()` into a collection with no unique email index:
appends unconditionally. -/
def insertUser (st : AuthState) (u : User) : AuthState :=
  { st with users := st.users ++ [u] }

/-- `pending_user.insert()`. -/
def insertPending (st : AuthState) (p : PendingUser) : AuthState :=
  { st with pending := st.pending ++ [p] }

/-- `user.save()` on an existing user: update the first document with
its email in place. -/
def replaceFirstUser : List User → User → List User
  | [], _ => []
  | q :: qs, u => if q.email == u.email then u :: qs else q :: replaceFirstUser qs u

/-- `user.save()` at the store level. -/
def saveUser (st : AuthState) (u : User) : AuthState :=
  { st with users := replaceFirstUser st.users u }

/-! ## Session tokens (`src/routers/auth.py:44-50`) -/

/-- The claims embedded by `create_access_token`: `sub` (the email) and
`exp = utcnow() + 60 minutes`.  (`user_id`, the Mongo object id, is
also embedded but carries no domain content in the model.) -/
structure SessionToken where
  sub : String
  exp : Nat
deriving DecidableEq, Repr

/-- `create_access_token` (`src/routers/auth.py:44-50`) with
`ACCESS_TOKEN_EXPIRE_MINUTES = 60`. -/
def create_access_token (sub : String) (now : Nat) : SessionToken :=
  { sub := sub, exp := now + 60 * 60 }

/-- Modelled: `jwt.encode` (external library) — an opaque string
encoding of the token used only to build the redirect URL. -/
def tokenString (t : SessionToken) : String :=
  t.sub ++ "." ++ toString t.exp

/-! ## Error taxonomy of the route handlers (`src/routers/auth.py`) -/

/-- The `HTTPException`s raised by the auth routes. -/
inductive ApiError
  | AlreadyRegistered
  | InvalidDateFormat
  | HashFailed
  | NotFound
  | ExpiredOTP
  | TooManyAttempts
  | InvalidOTP (remaining : Nat)
  | EmailSendFailed
  | InvalidCredentials
  | Unverified
  | Inactive
deriving DecidableEq, Repr

/-- The HTTP status code of each error, as raised by the source. -/
def ApiError.status : ApiError → Nat
  | .AlreadyRegistered => 400
  | .InvalidDateFormat => 400
  | .HashFailed => 400
  | .NotFound => 404
  | .ExpiredOTP => 400
  | .TooManyAttempts => 429
  | .InvalidOTP _ => 400
  | .EmailSendFailed => 500
  | .InvalidCredentials => 401
  | .Unverified => 403
  | .Inactive => 403

/-- The `detail` string of each error, as raised by the source. -/
def ApiError.detail : ApiError → String
  | .AlreadyRegistered => "Email already registered. Please login or use a different email."
  | .InvalidDateFormat => "Invalid date format. Expected YYYY-MM-DD"
  | .HashFailed => "Failed to hash password"
  | .NotFound => "No pending verification found. Please sign up again."
  | .ExpiredOTP => "OTP has expired. Please sign up again."
  | .TooManyAttempts => "Too many failed attempts. Please sign up again."
  | .InvalidOTP r => "Invalid OTP. " ++ toString r ++ " attempts remaining."
  | .EmailSendFailed => "Failed to send OTP email. Please try again."
  | .InvalidCredentials => "Invalid email or password"
  | .Unverified => "Please verify your email before logging in"
  | .Inactive => "Account is inactive"

/-! ## Route handlers (`src/routers/auth.py`)

Randomness and I/O outcomes are explicit parameters: `otp` is the code
produced by `generate_otp()`, `salt` the salt from `bcrypt.gensalt()`,
`emailSent` the boolean returned by `send_otp_email`, and `now` the
current time.  Each handler returns the store state after the request
together with the response: `.ok` a success payload, `.error` the
`HTTPException`. -/

/-- The success payload of `/auth/signup` and `/auth/resend-otp`. -/
structure OtpSentOk where
  message : String
  email : String
  expires_in_minutes : Nat
deriving DecidableEq, Repr

/-- The success payload of `/auth/verify-otp` and `/auth/login`. -/
structure TokenOk where
  message : String
  access_token : SessionToken
  token_type : String
  user_email : String
  user_full_name : String
  user_organization_type : String
deriving DecidableEq, Repr

/-- `signup` (`src/routers/auth.py:78-195`): reject if a `User` already
exists for the email; parse the date of birth; hash the password; upsert
the `PendingUser` with the fresh OTP, fresh issuance timestamp and
attempts reset to 0; send the OTP email — a send failure is only logged
and does not change the response. -/
def signup (st : AuthState) (now : Nat) (r : RawSignup) (otp salt : String)
    (emailSent : Bool) : AuthState × Except ApiError OtpSentOk :=
  match findUserByEmail st r.email with
  | some _ => (st, .error .AlreadyRegistered)
  | none =>
    let pending0 := findPendingByEmail st r.email
    match strptimeYMD r.date_of_birth with
    | none => (st, .error .InvalidDateFormat)
    | some dob =>
      match hash_password r.password salt with
      | .error _ => (st, .error .HashFailed)
      | .ok hashed_pwd =>
        let st' :=
          match pending0 with
          | some p =>
            savePending st { p with
              full_name := r.full_name
              date_of_birth := dob
              organization_type := r.organization_type
              organization_name := r.organization_name
              hashed_password := hashed_pwd
              otp_code := otp
              otp_created_at := now
              otp_attempts := 0 }
          | none =>
            insertPending st {
              email := r.email
              full_name := r.full_name
              date_of_birth := dob
              organization_type := r.organization_type
              organization_name := r.organization_name
              hashed_password := hashed_pwd
              otp_code := otp
              otp_created_at := now
              otp_attempts := 0 }
        let _ := emailSent
        (st', .ok {
          message := "OTP sent successfully! Please check your email to verify your account."
          email := r.email
          expires_in_minutes := 10 })

/-- `verify_otp` (`src/routers/auth.py:198-303`): 404 when no pending
registration exists; if the OTP is expired, delete the pending record
and fail 400; if locked (5 or more failed attempts), fail 429 without
mutating; on a code mismatch, increment and persist the attempt counter
and fail 400 with the remaining-attempts count; on a match, insert the
confirmed `User` (verified and active), delete the pending record and
issue a token. -/
def verify_otp (st : AuthState) (now : Nat) (email otp : String) :
    AuthState × Except ApiError TokenOk :=
  match findPendingByEmail st email with
  | none => (st, .error .NotFound)
  | some pending_user =>
    if pending_user.is_otp_expired 10 now then
      (deletePending st email, .error .ExpiredOTP)
    else if pending_user.is_locked 5 then
      (st, .error .TooManyAttempts)
    else if pending_user.otp_code ≠ otp then
      let p' := { pending_user with otp_attempts := pending_user.otp_attempts + 1 }
      (savePending st p', .error (.InvalidOTP (5 - p'.otp_attempts)))
    else
      let user : User := {
        email := pending_user.email
        full_name := pending_user.full_name
        date_of_birth := some pending_user.date_of_birth
        organization_type := pending_user.organization_type
        organization_name := pending_user.organization_name
        hashed_password := some pending_user.hashed_password
        google_id := none
        is_email_verified := true
        is_active := true
        is_superuser := false }
      let st1 := insertUser st user
      let st2 := deletePending st1 email
      (st2, .ok {
        message := "Email verified successfully! Welcome to KAANOONGPT!"
        access_token := create_access_token user.email now
        token_type := "bearer"
        user_email := user.email
        user_full_name := user.full_name
        user_organization_type := user.organization_type })

/-- `resend_otp` (`src/routers/auth.py:306-365`): 404 when no pending
registration exists; otherwise store the regenerated OTP with a fresh
issuance timestamp and attempts reset to 0, then send the email — here
a send failure is surfaced to the caller as a 500. -/
def resend_otp (st : AuthState) (now : Nat) (email newOtp : String)
    (emailSent : Bool) : AuthState × Except ApiError OtpSentOk :=
  match findPendingByEmail st email with
  | none => (st, .error .NotFound)
  | some pending_user =>
    let p' := { pending_user with
      otp_code := newOtp
      otp_created_at := now
      otp_attempts := 0 }
    let st' := savePending st p'
    if emailSent = false then
      (st', .error .EmailSendFailed)
    else
      (st', .ok {
        message := "New OTP sent successfully! Please check your email."
        email := pending_user.email
        expires_in_minutes := 10 })

/-- `login` (`src/routers/auth.py:370-435`): a missing user, a user
without a password hash, and a failed password check all raise the same
401 `InvalidCredentials`; then an unverified email or an inactive
account raise 403; otherwise a token is issued.  The store is not
modified. -/
def login (st : AuthState) (now : Nat) (email password : String) :
    Except ApiError TokenOk :=
  match findUserByEmail st email with
  | none => .error .InvalidCredentials
  | some user =>
    match user.hashed_password with
    | none => .error .InvalidCredentials
    | some hp =>
      if verify_password password hp = false then .error .InvalidCredentials
      else if user.is_email_verified = false then .error .Unverified
      else if user.is_active = false then .error .Inactive
      else .ok {
        message := ""
        access_token := create_access_token user.email now
        token_type := "bearer"
        user_email := user.email
        user_full_name := user.full_name
        user_organization_type := user.organization_type }

/-! ## Google OAuth callback (`src/routers/auth.py:449-543`) -/

/-- The provider-asserted claims decoded (without signature
verification) from the id token.  `none` fields model absent claims
(`user_data.get(...)` returning `None`). -/
structure GoogleClaims where
  email : Option String
  sub : Option String
  name : Option String
  given_name : Option String
  family_name : Option String
deriving DecidableEq, Repr

/-- The outcome of the external code exchange and id-token decode:
the exchange request itself can raise, the token dict can lack an
`id_token`, `jwt.decode` can raise, or claims are obtained. -/
inductive ExchangeOutcome
  | exchangeRaised
  | noIdToken
  | decodeRaised
  | claims (c : GoogleClaims)
deriving DecidableEq, Repr

/-- `"".join-style` model of `f"{first} {last}".strip()`. -/
def joinStrip (first last : String) : String :=
  (first ++ " " ++ last).trim

/-- `email.split('@')[0]`. -/
def localPart (email : String) : String :=
  String.mk (email.data.takeWhile (· ≠ '@'))

/-- The body of `google_callback` up to the redirect: every `raise` and
every exception of the exchange/decode is `.error ()`.  Mirrors
`src/routers/auth.py:452-531`: exchange the code, require an
`id_token`, decode it without verification, extract email / google id /
display name (the name fallback chain dereferences `email` and so
raises when `email` is `None`), reject missing email or google id,
then find-or-create the `User` (new users get
`organization_type="individual"`, verified and active, no password
hash; existing users only get a missing `google_id` backfilled) and
mint the token. -/
def googleCallbackInner (st : AuthState) (now : Nat) (exch : ExchangeOutcome) :
    AuthState × Except Unit SessionToken :=
  match exch with
  | .exchangeRaised => (st, .error ())
  | .noIdToken => (st, .error ())
  | .decodeRaised => (st, .error ())
  | .claims c =>
    let name0 := c.name.getD ""
    let name1 :=
      if name0 ≠ "" then some name0
      else
        let fallback := joinStrip (c.given_name.getD "") (c.family_name.getD "")
        if fallback ≠ "" then some fallback
        else match c.email with
          | some e => some (localPart e)
          | none => none
    match name1 with
    | none => (st, .error ())
    | some full_name =>
      match c.email, c.sub with
      | some email, some google_id =>
        if email = "" ∨ google_id = "" then (st, .error ())
        else
          match findUserByEmail st email with
          | none =>
            let user : User := {
              email := email
              full_name := full_name
              date_of_birth := none
              organization_type := "individual"
              organization_name := none
              hashed_password := none
              google_id := some google_id
              is_email_verified := true
              is_active := true
              is_superuser := false }
            (insertUser st user, .ok (create_access_token email now))
          | some user =>
            let st' :=
              match user.google_id with
              | none => saveUser st { user with google_id := some google_id }
              | some _ => st
            (st', .ok (create_access_token user.email now))
      | _, _ => (st, .error ())

/-- `google_callback` (`src/routers/auth.py:449-543`): the whole body
runs under `try/except Exception` with no `except HTTPException:
raise`, so every failure — including the internally raised
`HTTPException`s — becomes a redirect to
`<frontend>/auth/login?error=authentication_failed`, and success a
redirect to `<frontend>/auth/callback?token=<jwt>`.  The result is the
redirect URL; no structured API error can escape. -/
def google_callback (frontend : String) (st : AuthState) (now : Nat)
    (exch : ExchangeOutcome) : AuthState × String :=
  match googleCallbackInner st now exch with
  | (st', .ok tok) => (st', frontend ++ "/auth/callback?token=" ++ tokenString tok)
  | (st', .error _) => (st', frontend ++ "/auth/login?error=authentication_failed")

/-! ## Concrete traces used by the counterexample/bug theorems -/

/-- A signup request used by the concrete traces. -/
def exampleSignup : RawSignup := {
  full_name := "A user"
  email := "a@x.com"
  date_of_birth := "2000-01-01"
  organization_type := "law_firm"
  organization_name := none
  password := "longpassword1"
  confirm_password := "longpassword1" }

/-- The store state after signup for `a@x.com` (OTP `123456`) followed
by four OTP attempts with the wrong code `000000`, all at time 0 (well
inside the expiry window): the pending registration has accumulated
exactly 4 failed attempts. -/
def lockoutPreState : AuthState :=
  let st1 := (signup ⟨[], []⟩ 0 exampleSignup "123456" "NaCl" true).1
  let st2 := (verify_otp st1 0 "a@x.com" "000000").1
  let st3 := (verify_otp st2 0 "a@x.com" "000000").1
  let st4 := (verify_otp st3 0 "a@x.com" "000000").1
  (verify_otp st4 0 "a@x.com" "000000").1

/-- The fifth OTP attempt, supplying the correct code, after four
failures. -/
def lockoutTrace : AuthState × Except ApiError TokenOk :=
  verify_otp lockoutPreState 0 "a@x.com" "123456"

/-- Trace for the email-uniqueness claim: signup for `a@x.com`, then a
Google OAuth callback for the same email (creating the Identity), then
OTP verification of the still-pending registration (inserting a second
Identity with the same email). -/
def duplicateTrace : AuthState :=
  let st1 := (signup ⟨[], []⟩ 0 exampleSignup "123456" "NaCl" true).1
  let st2 := (google_callback "http://localhost:3000" st1 0
    (.claims ⟨some "a@x.com", some "google-sub-1", some "A user", none, none⟩)).1
  (verify_otp st2 0 "a@x.com" "123456").1

/-- A 500-character password, far beyond bcrypt's 72-byte input limit. -/
def longPassword : String :=
  String.mk (List.replicate 500 'a')

/-- A concrete pending registration used by witnesses (OTP issued at
time 0, no failed attempts yet). -/
def examplePending : PendingUser := {
  email := "a@x.com"
  full_name := "A user"
  date_of_birth := ⟨2000, 1, 1⟩
  organization_type := "law_firm"
  organization_name := none
  hashed_password := "h"
  otp_code := "123456"
  otp_created_at := 0
  otp_attempts := 0 }

/-- A concrete confirmed user used by witnesses, whose stored hash is
the hash of `"correcthorse"`. -/
def exampleUser : User := {
  email := "a@x.com"
  full_name := "A user"
  date_of_birth := some ⟨2000, 1, 1⟩
  organization_type := "law_firm"
  organization_name := none
  hashed_password := some (bcryptHashpw (sha256hex "correcthorse") "NaCl")
  google_id := none
  is_email_verified := true
  is_active := true
  is_superuser := false }

/-! ### Lemmas about the hasher -/

theorem hexDigit_ne_dollar (n : Nat) : hexDigit n ≠ '$' := by
  unfold hexDigit
  split <;> decide

theorem sha256hex_no_dollar (s : String) : '$' ∉ (sha256hex s).data := by
  intro hmem
  have hmem' : '$' ∈ (List.range 64).map (fun i => hexDigit (shaMix s / 16 ^ i % 16)) := hmem
  rcases List.mem_map.mp hmem' with ⟨i, _, heq⟩
  exact hexDigit_ne_dollar _ heq

theorem splitD_no_dollar {l : List Char} (h : '$' ∉ l) : splitD l = [l] := by
  induction l with
  | nil => rfl
  | cons c cs ih =>
    have hc : c ≠ '$' := fun hc => h (hc ▸ List.mem_cons_self c cs)
    have hcs : '$' ∉ cs := fun hm => h (List.mem_cons_of_mem c hm)
    simp [splitD, hc, ih hcs]

theorem splitD_append {l1 l2 : List Char} (h : '$' ∉ l1) :
    splitD (l1 ++ '$' :: l2) = l1 :: splitD l2 := by
  induction l1 with
  | nil => simp [splitD]
  | cons c cs ih =>
    have hc : c ≠ '$' := fun hc => h (hc ▸ List.mem_cons_self c cs)
    have hcs : '$' ∉ cs := fun hm => h (List.mem_cons_of_mem c hm)
    have step : splitD (c :: (cs ++ '$' :: l2)) =
        match splitD (cs ++ '$' :: l2) with
        | [] => [[c]]
        | l :: ls => (c :: l) :: ls := by
      simp only [splitD, if_neg hc]
    rw [List.cons_append, step, ih hcs]

theorem bcryptParse_hashpw (input salt : String) (hs : '$' ∉ salt.data)
    (hi : '$' ∉ input.data) :
    bcryptParse (bcryptHashpw input salt) =
      some (salt, String.mk (input.data.take 72)) := by
  have hi72 : '$' ∉ input.data.take 72 := fun hm => hi (List.take_subset 72 input.data hm)
  have hsplit : splitD ('$' :: '2' :: 'b' :: '$' :: '1' :: '2' :: '$' ::
      (salt.data ++ '$' :: input.data.take 72)) =
      [[], ['2', 'b'], ['1', '2'], salt.data, input.data.take 72] := by
    have e1 : ('$' :: '2' :: 'b' :: '$' :: '1' :: '2' :: '$' ::
        (salt.data ++ '$' :: input.data.take 72)) =
        '$' :: (['2', 'b'] ++ '$' :: (['1', '2'] ++ '$' ::
          (salt.data ++ '$' :: input.data.take 72))) := rfl
    rw [e1]
    have h2b : ('$' : Char) ∉ ['2', 'b'] := by decide
    have h12 : ('$' : Char) ∉ ['1', '2'] := by decide
    have hhead : ∀ cs, splitD ('$' :: cs) = [] :: splitD cs := fun cs => by
      simp [splitD]
    rw [hhead, splitD_append h2b, splitD_append h12, splitD_append hs]
    rw [splitD_no_dollar hi72]
  have hdata : (bcryptHashpw input salt).data =
      '$' :: '2' :: 'b' :: '$' :: '1' :: '2' :: '$' ::
        (salt.data ++ '$' :: input.data.take 72) := rfl
  have hmk : String.mk salt.data = salt := by cases salt; rfl
  simp only [bcryptParse, hdata, hsplit, hmk]

theorem bcryptHashpw_ne_empty (input salt : String) : bcryptHashpw input salt ≠ "" := by
  intro h0
  have hdata : (bcryptHashpw input salt).data = [] := by rw [h0]
  simp [bcryptHashpw] at hdata

/-! ### Lemmas about the store -/

theorem removeFirstPending_find_none (l : List PendingUser) (e : String)
    (h : (l.filter (·.email == e)).length ≤ 1) :
    (removeFirstPending l e).find? (·.email == e) = none := by
  induction l with
  | nil => rfl
  | cons q qs ih =>
    by_cases hq : q.email == e
    · have hfl : (q :: qs).filter (·.email == e) = q :: qs.filter (·.email == e) :=
        List.filter_cons_of_pos hq
      rw [hfl] at h
      have hzero : (qs.filter (·.email == e)).length = 0 := by
        rw [List.length_cons] at h
        omega
      have hnil : qs.filter (·.email == e) = [] := List.length_eq_zero.mp hzero
      have : removeFirstPending (q :: qs) e = qs := by simp [removeFirstPending, hq]
      rw [this, List.find?_eq_none]
      intro x hx hpx
      have : x ∈ qs.filter (·.email == e) := List.mem_filter.mpr ⟨hx, hpx⟩
      rw [hnil] at this
      exact absurd this (List.not_mem_nil x)
    · have hstep : removeFirstPending (q :: qs) e = q :: removeFirstPending qs e := by
        simp [removeFirstPending, hq]
      have hfl : (q :: qs).filter (·.email == e) = qs.filter (·.email == e) :=
        List.filter_cons_of_neg (by simpa using hq)
      rw [hfl] at h
      rw [hstep]
      rw [List.find?_cons_of_neg _ (by simpa using hq)]
      exact ih h

/-! ## Claim theorems -/

/-- C3: for every non-empty password `p` — including passwords far
longer than bcrypt's 72-byte input limit — hashing succeeds and
`verify_password p (hash_password p)` holds: the SHA-256
length-normalizing pre-hash is applied identically on the hashing and
verification paths.  The salt is the random salt of `bcrypt.gensalt`
(bcrypt salts are base64 and so contain no `'$'`). -/
theorem hash_verify_roundtrip (p salt : String) (hp : p ≠ "")
    (hs : '$' ∉ salt.data) :
    ∃ h, hash_password p salt = .ok h ∧ verify_password p h = true := by
  refine ⟨bcryptHashpw (sha256hex p) salt, ?_, ?_⟩
  · simp [hash_password, hp]
  · have hne := bcryptHashpw_ne_empty (sha256hex p) salt
    simp only [verify_password]
    rw [if_neg (by push_neg; exact ⟨hp, hne⟩)]
    simp only [bcryptCheckpw, bcryptParse_hashpw (sha256hex p) salt hs (sha256hex_no_dollar p)]
    simp

/-- Witness for C3 at a concrete 500-character password. -/
theorem hash_verify_roundtrip_witness :
    ∃ h, hash_password longPassword "NaCl" = .ok h ∧
      verify_password longPassword h = true :=
  hash_verify_roundtrip longPassword "NaCl" (by decide) (by decide)

/-- C9: `verify_password` is a total boolean function (it never
throws), and it returns `false` when the password is empty, when the
stored hash is empty, and when the stored hash is malformed (i.e. the
bcrypt parse of it fails). -/
theorem verify_password_never_throws (p h : String)
    (hbad : p = "" ∨ h = "" ∨ bcryptParse h = none) :
    verify_password p h = false := by
  rcases hbad with hp | hh | hm
  · simp [verify_password, hp]
  · simp [verify_password, hh]
  · by_cases hp : p = ""
    · simp [verify_password, hp]
    · by_cases hh : h = ""
      · simp [verify_password, hh]
      · simp only [verify_password]
        rw [if_neg (by push_neg; exact ⟨hp, hh⟩)]
        simp [bcryptCheckpw, hm]

/-- Witness for C9 at a malformed stored hash. -/
theorem verify_password_never_throws_witness :
    verify_password "secretpassword" "not-a-bcrypt-hash" = false :=
  verify_password_never_throws "secretpassword" "not-a-bcrypt-hash"
    (Or.inr (Or.inr (by decide)))

/-- C5: an unknown login email and a wrong password for an existing
account produce the very same failure value — the same 401 status and
the identical `"Invalid email or password"` message — so the response
does not distinguish the two cases. -/
theorem login_uniform_invalid_credentials
    (st1 : AuthState) (now1 : Nat) (e1 p1 : String)
    (st2 : AuthState) (now2 : Nat) (e2 p2 : String) (u : User) (hp : String)
    (h1 : findUserByEmail st1 e1 = none)
    (h2 : findUserByEmail st2 e2 = some u)
    (hu : u.hashed_password = some hp)
    (hw : verify_password p2 hp = false) :
    login st1 now1 e1 p1 = .error .InvalidCredentials ∧
    login st2 now2 e2 p2 = .error .InvalidCredentials ∧
    ApiError.InvalidCredentials.status = 401 ∧
    ApiError.InvalidCredentials.detail = "Invalid email or password" := by
  refine ⟨?_, ?_, rfl, rfl⟩
  · simp [login, h1]
  · simp [login, h2, hu, hw]

/-- Witness for C5: a store with no user at all, and a store holding
`exampleUser` probed with a wrong password. -/
theorem login_uniform_invalid_credentials_witness :
    login ⟨[], []⟩ 0 "nobody@x.com" "password123" = .error .InvalidCredentials ∧
    login ⟨[exampleUser], []⟩ 0 "a@x.com" "wrongpassword" = .error .InvalidCredentials ∧
    ApiError.InvalidCredentials.status = 401 ∧
    ApiError.InvalidCredentials.detail = "Invalid email or password" :=
  login_uniform_invalid_credentials ⟨[], []⟩ 0 "nobody@x.com" "password123"
    ⟨[exampleUser], []⟩ 0 "a@x.com" "wrongpassword" exampleUser
    (bcryptHashpw (sha256hex "correcthorse") "NaCl")
    (by rfl) (by rfl) (by rfl) (by decide)

/-- C1 counterexample: after exactly 4 failed OTP attempts the fifth
`verify_otp` call that supplies the correct code *succeeds* (the code
checks `otp_attempts >= 5` before comparing, so four failures do not
lock) — it does not return `TooManyAttemptsError`/429 as claimed. -/
theorem fifth_attempt_with_correct_code_succeeds :
    (findPendingByEmail lockoutPreState "a@x.com").map (·.otp_attempts) = some 4 ∧
    lockoutTrace.2 = Except.ok {
      message := "Email verified successfully! Welcome to KAANOONGPT!"
      access_token := { sub := "a@x.com", exp := 3600 }
      token_type := "bearer"
      user_email := "a@x.com"
      user_full_name := "A user"
      user_organization_type := "law_firm" } := by
  constructor
  · rfl
  · rfl

/-- C1 amended: once the failed-attempt counter has reached the cap of
5, a further `verify_otp` call inside the expiry window that supplies
the correct code returns `TooManyAttemptsError` (429) rather than
succeeding, without mutating the store — lockout takes precedence over
code correctness once attempts reach 5. -/
theorem lockout_takes_precedence_over_correct_code
    (st : AuthState) (now : Nat) (email : String) (p : PendingUser)
    (hfind : findPendingByEmail st email = some p)
    (hnotexp : p.is_otp_expired 10 now = false)
    (hlock : 5 ≤ p.otp_attempts) :
    (verify_otp st now email p.otp_code).2 = .error .TooManyAttempts ∧
    (verify_otp st now email p.otp_code).1 = st ∧
    ApiError.TooManyAttempts.status = 429 := by
  have hl : p.is_locked 5 = true := by
    simp [PendingUser.is_locked, hlock]
  refine ⟨?_, ?_, rfl⟩ <;> simp [verify_otp, hfind, hnotexp, hl]

/-- Witness for the amended C1: a pending registration with 5 failed
attempts, probed with its own (correct) OTP code. -/
theorem lockout_takes_precedence_witness :
    (verify_otp ⟨[], [{ examplePending with otp_attempts := 5 }]⟩ 0 "a@x.com"
      ({ examplePending with otp_attempts := 5 } : PendingUser).otp_code).2 =
      .error .TooManyAttempts ∧
    (verify_otp ⟨[], [{ examplePending with otp_attempts := 5 }]⟩ 0 "a@x.com"
      ({ examplePending with otp_attempts := 5 } : PendingUser).otp_code).1 =
      ⟨[], [{ examplePending with otp_attempts := 5 }]⟩ ∧
    ApiError.TooManyAttempts.status = 429 :=
  lockout_takes_precedence_over_correct_code
    ⟨[], [{ examplePending with otp_attempts := 5 }]⟩ 0 "a@x.com"
    { examplePending with otp_attempts := 5 }
    (by rfl) (by rfl) (by decide)

/-- C6: when the pending registration's OTP expiry window (10 minutes
from issuance) has elapsed, `verify_otp` deletes the pending record and
fails with `ExpiredOTPError` (400), and a subsequent `verify_otp` for
the same email fails with `NotFoundError` (404), not `ExpiredOTPError`.
(The store holds at most one pending record per email — signup upserts.) -/
theorem expired_otp_deletes_then_not_found
    (st : AuthState) (now now2 : Nat) (email otp otp2 : String) (p : PendingUser)
    (hfind : findPendingByEmail st email = some p)
    (hexp : p.is_otp_expired 10 now = true)
    (huniq : (st.pending.filter (·.email == email)).length ≤ 1) :
    (verify_otp st now email otp).2 = .error .ExpiredOTP ∧
    ApiError.ExpiredOTP.status = 400 ∧
    findPendingByEmail (verify_otp st now email otp).1 email = none ∧
    (verify_otp (verify_otp st now email otp).1 now2 email otp2).2 =
      .error .NotFound ∧
    ApiError.NotFound.status = 404 := by
  have hrun : verify_otp st now email otp = (deletePending st email, .error .ExpiredOTP) := by
    simp [verify_otp, hfind, hexp]
  have hnone : findPendingByEmail (deletePending st email) email = none :=
    removeFirstPending_find_none st.pending email huniq
  refine ⟨by rw [hrun], rfl, by rw [hrun]; exact hnone, ?_, rfl⟩
  rw [hrun]
  simp [verify_otp, hnone]

/-- Witness for C6: `examplePending` (OTP issued at time 0) probed at
time 999999, far past the 600-second window. -/
theorem expired_otp_deletes_then_not_found_witness :
    (verify_otp ⟨[], [examplePending]⟩ 999999 "a@x.com" "123456").2 =
      .error .ExpiredOTP ∧
    ApiError.ExpiredOTP.status = 400 ∧
    findPendingByEmail (verify_otp ⟨[], [examplePending]⟩ 999999 "a@x.com" "123456").1
      "a@x.com" = none ∧
    (verify_otp (verify_otp ⟨[], [examplePending]⟩ 999999 "a@x.com" "123456").1
      999999 "a@x.com" "123456").2 = .error .NotFound ∧
    ApiError.NotFound.status = 404 :=
  expired_otp_deletes_then_not_found ⟨[], [examplePending]⟩ 999999 999999
    "a@x.com" "123456" "123456" examplePending (by rfl) (by rfl) (by decide)

/-- C2: the `users` collection declares no unique index on `email` and
`verify_otp` does not re-check the Identity store before inserting, so
the store-level uniqueness the spec demands is not enforced: after
signup for `a@x.com`, a Google OAuth login for `a@x.com` (creating the
Identity), and then OTP verification of the still-pending registration,
the store holds **two** Identity records with the same email — the
insertion did not fail with `DuplicateEmailError`. -/
theorem duplicate_identity_reachable :
    (duplicateTrace.users.filter (·.email == "a@x.com")).length = 2 ∧
    duplicateTrace.pending = [] := by
  constructor
  · rfl
  · rfl

/-- C4: `validate_organization_type` rejects `"researcher"` — the value
the spec's enumeration contains, the schema's own inline comment lists
as an example, and the `User` model uses as its default
`organization_type` — while accepting the other seven enumerated
values. -/
theorem organization_type_researcher_rejected :
    isOkE (validate_organization_type "researcher") = false ∧
    isOkE (validate_organization_type userDefaultOrganizationType) = false ∧
    (organizationTypeAllowed.all fun v => isOkE (validate_organization_type v)) = true ∧
    organizationTypeAllowed.contains "researcher" = false := by
  refine ⟨rfl, rfl, rfl, by decide⟩

/-- C7: notification-dispatch failure is asymmetric.  For signup, a
failed OTP email does not fail the response: the success payload is
returned exactly as when the send succeeds.  For resend, the same
failure surfaces as `EmailSendFailed` with status 500 (after the new
OTP has been stored), while a successful send returns the success
payload. -/
theorem notification_failure_asymmetry
    (st : AuthState) (now : Nat) (r : RawSignup) (otp salt : String)
    (st2 : AuthState) (now2 : Nat) (email newOtp : String)
    (d : DateYMD) (p : PendingUser)
    (hnou : findUserByEmail st r.email = none)
    (hdob : strptimeYMD r.date_of_birth = some d)
    (hpw : r.password ≠ "")
    (hpend : findPendingByEmail st2 email = some p) :
    (signup st now r otp salt false).2 = .ok {
      message := "OTP sent successfully! Please check your email to verify your account."
      email := r.email
      expires_in_minutes := 10 } ∧
    (signup st now r otp salt false).2 = (signup st now r otp salt true).2 ∧
    (resend_otp st2 now2 email newOtp false).2 = .error .EmailSendFailed ∧
    ApiError.EmailSendFailed.status = 500 ∧
    isOkE (resend_otp st2 now2 email newOtp true).2 = true := by
  refine ⟨?_, ?_, ?_, rfl, ?_⟩
  · simp [signup, hnou, hdob, hash_password, hpw]
  · simp [signup, hnou, hdob, hash_password, hpw]
  · simp [resend_otp, hpend]
  · simp [resend_otp, hpend, isOkE]

/-- Witness for C7 at the example signup request and a store holding
`examplePending`. -/
theorem notification_failure_asymmetry_witness :
    (signup ⟨[], []⟩ 0 exampleSignup "123456" "NaCl" false).2 = .ok {
      message := "OTP sent successfully! Please check your email to verify your account."
      email := exampleSignup.email
      expires_in_minutes := 10 } ∧
    (signup ⟨[], []⟩ 0 exampleSignup "123456" "NaCl" false).2 =
      (signup ⟨[], []⟩ 0 exampleSignup "123456" "NaCl" true).2 ∧
    (resend_otp ⟨[], [examplePending]⟩ 5 "a@x.com" "654321" false).2 =
      .error .EmailSendFailed ∧
    ApiError.EmailSendFailed.status = 500 ∧
    isOkE (resend_otp ⟨[], [examplePending]⟩ 5 "a@x.com" "654321" true).2 = true :=
  notification_failure_asymmetry ⟨[], []⟩ 0 exampleSignup "123456" "NaCl"
    ⟨[], [examplePending]⟩ 5 "a@x.com" "654321" ⟨2000, 1, 1⟩ examplePending
    (by rfl) (by rfl) (by decide) (by rfl)

/-- C8: the Google callback never surfaces a structured API error: any
exception in the code exchange or claims extraction (including the
`HTTPException`s raised inside the handler body, which the blanket
`except Exception` also catches) becomes a redirect to
`<frontend>/auth/login?error=authentication_failed`, and success
becomes a redirect to `<frontend>/auth/callback?token=<token>`. -/
theorem google_callback_always_redirects (frontend : String) (st : AuthState)
    (now : Nat) (exch : ExchangeOutcome) :
    ((googleCallbackInner st now exch).2 = .error () →
      (google_callback frontend st now exch).2 =
        frontend ++ "/auth/login?error=authentication_failed") ∧
    (∀ tok, (googleCallbackInner st now exch).2 = .ok tok →
      (google_callback frontend st now exch).2 =
        frontend ++ "/auth/callback?token=" ++ tokenString tok) ∧
    (google_callback frontend st now .exchangeRaised).2 =
      frontend ++ "/auth/login?error=authentication_failed" ∧
    (google_callback frontend st now .noIdToken).2 =
      frontend ++ "/auth/login?error=authentication_failed" ∧
    (google_callback frontend st now .decodeRaised).2 =
      frontend ++ "/auth/login?error=authentication_failed" := by
  refine ⟨?_, ?_, rfl, rfl, rfl⟩
  · intro herr
    rcases hres : googleCallbackInner st now exch with ⟨st', res⟩
    rw [hres] at herr
    cases res with
    | ok tok => exact absurd herr (by simp)
    | error u =>
      unfold google_callback
      rw [hres]
  · intro tok htok
    rcases hres : googleCallbackInner st now exch with ⟨st', res⟩
    rw [hres] at htok
    cases res with
    | error u => exact absurd htok (by simp)
    | ok tok' =>
      have : tok' = tok := by simpa using htok
      subst this
      unfold google_callback
      rw [hres]

/-- Witness for C8: a failed exchange redirects to the error URL, and a
successful exchange for `b@y.com` redirects with a token. -/
theorem google_callback_always_redirects_witness :
    (google_callback "http://localhost:3000" ⟨[], []⟩ 0 .exchangeRaised).2 =
      "http://localhost:3000" ++ "/auth/login?error=authentication_failed" ∧
    (google_callback "http://localhost:3000" ⟨[], []⟩ 0
      (.claims ⟨some "b@y.com", some "sub9", some "B", none, none⟩)).2 =
      "http://localhost:3000" ++ "/auth/callback?token=" ++
        tokenString (create_access_token "b@y.com" 0) :=
  ⟨(google_callback_always_redirects "http://localhost:3000" ⟨[], []⟩ 0
      .exchangeRaised).1 (by rfl),
   (google_callback_always_redirects "http://localhost:3000" ⟨[], []⟩ 0
      (.claims ⟨some "b@y.com", some "sub9", some "B", none, none⟩)).2.1
      (create_access_token "b@y.com" 0) (by rfl)⟩

/-- C10: any signup request whose password has fewer than 10 characters
is rejected by the pydantic validation of `SignupRequest` — a pure
check that runs before the route handler, hence before any hashing or
store access — regardless of the other fields. -/
theorem signup_password_min_length (nowDays : Nat) (r : RawSignup)
    (hshort : r.password.length < 10) :
    isOkE (validateSignupRequest nowDays r) = false := by
  unfold validateSignupRequest
  repeat' split
  all_goals first | rfl | omega

/-- Witness for C10: the example request with a 5-character password. -/
theorem signup_password_min_length_witness :
    isOkE (validateSignupRequest 739900
      { exampleSignup with password := "short", confirm_password := "short" }) = false :=
  signup_password_min_length 739900
    { exampleSignup with password := "short", confirm_password := "short" } (by decide)
